import Mathlib

/-!
Verification of the Calendar Conversion & Regional Mapping Engine
(`src/services/converter.ts`, `src/services/types.ts`) of the calendar-ms
repository.  The TypeScript source is shallowly embedded: pure functions
become Lean functions, thrown `ConversionError`s become `Except` errors,
JS truthiness of optional fields is made explicit, and JS `Date`
month-length / day-shift arithmetic is modelled over `Int`.
-/

namespace CalendarMS

/-! ## Types (`src/services/types.ts`) -/

inductive CalendarType where
  | gregorian
  | hijri
  | hijri_indonesia
deriving DecidableEq, Repr

/-- Regions are a TS string enum; tests cast arbitrary strings into it,
so the runtime type is `String`. -/
abbrev Region := String

def Region.GLOBAL : Region := "global"

def Region.INDONESIA : Region := "indonesia"

def Region.SAUDI_ARABIA : Region := "saudi_arabia"

def Region.MALAYSIA : Region := "malaysia"

structure GregorianDate where
  year : Int
  month : Int
  day : Int
deriving DecidableEq, Repr

structure HijriDate where
  year : Int
  month : Int
  day : Int
  monthName : Option String := none
deriving DecidableEq, Repr

inductive Confidence where
  | high
  | medium
  | low
deriving DecidableEq, Repr

/-- `ConversionResult`, parameterized by the concrete source/target date
types (the TS interface uses the union `GregorianDate | HijriDate` for
both `originalDate` and `convertedDate`). -/
structure ConversionResult (α β : Type) where
  originalDate : α
  convertedDate : β
  sourceCalendar : CalendarType
  targetCalendar : CalendarType
  region : Region
  confidence : Confidence
  notes : String
  fallbackUsed : Bool
deriving DecidableEq, Repr

structure RegionalMapping where
  region : Region
  adjustmentDays : Int
  rukyatBased : Bool
  description : String
deriving DecidableEq, Repr

structure ConversionOptions where
  region : Option Region := none
  allowFallback : Option Bool := none
  includeMonthNames : Option Bool := none
  strict : Option Bool := none
deriving DecidableEq, Repr

structure DateValidationResult where
  isValid : Bool
  errors : List String
deriving DecidableEq, Repr

/-- `ConversionError` (the thrown error class), parameterized by the type
of the preserved original date. -/
structure ConversionError (α : Type) where
  message : String
  code : String
  originalDate : α
  targetCalendar : CalendarType
deriving DecidableEq, Repr

/-- JS truthiness of an optional boolean option field: only an explicitly
supplied `true` is truthy (`undefined` and `false` are falsy). -/
def truthy (o : Option Bool) : Bool := o.getD false

/-! ## JS `Date` month-length model

`validateGregorianDate` computes days-in-month as
`new Date(year, month, 0).getDate()`.  JS `Date` uses the proleptic
Gregorian calendar, normalizes out-of-range month indices with floor
semantics, and maps constructor years `0..99` to `1900..1999`. -/

def isLeapYear (y : Int) : Bool :=
  y % 4 == 0 && (y % 100 != 0 || y % 400 == 0)

/-- Length of calendar month `m ∈ [1,12]` of year `y` in the proleptic
Gregorian calendar. -/
def monthLen (y m : Int) : Int :=
  if m = 2 then (if isLeapYear y then 29 else 28)
  else if m = 4 ∨ m = 6 ∨ m = 9 ∨ m = 11 then 30
  else 31

/-- The JS `Date` constructor's two-digit-year mapping. -/
def jsYear (y : Int) : Int := if 0 ≤ y ∧ y ≤ 99 then 1900 + y else y

/-- `new Date(y, m, 0).getDate()`: the length of calendar month `m` of
year `y`, with months outside `[1,12]` rolled over into adjacent years
(floor division; Lean's `Int` `/` and `%` are floor-style for the
positive divisor 12). -/
def jsDaysInMonth (y m : Int) : Int :=
  monthLen (jsYear y + (m - 1) / 12) ((m - 1) % 12 + 1)

/-- The calendar day after `g` (JS `setDate(getDate() + 1)` on a
normalized date). -/
def nextDay : GregorianDate → GregorianDate
  | ⟨y, m, d⟩ =>
    if d < monthLen y m then ⟨y, m, d + 1⟩
    else if m < 12 then ⟨y, m + 1, 1⟩
    else ⟨y + 1, 1, 1⟩

/-- The calendar day before `g` (JS `setDate(getDate() - 1)` on a
normalized date). -/
def prevDay : GregorianDate → GregorianDate
  | ⟨y, m, d⟩ =>
    if 1 < d then ⟨y, m, d - 1⟩
    else if 1 < m then ⟨y, m - 1, monthLen y (m - 1)⟩
    else ⟨y - 1, 12, 31⟩

/-- JS `Date.setDate(getDate() + n)`: shift a date by `n` calendar days. -/
def addDays (g : GregorianDate) (n : Int) : GregorianDate :=
  if 0 ≤ n then nextDay^[n.toNat] g else prevDay^[(-n).toNat] g

/-! ## DateValidator -/

/-- The error accumulation of `validateGregorianDate`.  Mirrors the JS
truthiness guards (`!date.year` etc. are only falsy at `0` for integer
inputs). -/
def gregorianValidationErrors (date : GregorianDate) : List String :=
  (if date.year = 0 ∨ date.year < 1 ∨ date.year > 9999 then
    ["Year must be between 1 and 9999"] else []) ++
  (if date.month = 0 ∨ date.month < 1 ∨ date.month > 12 then
    ["Month must be between 1 and 12"] else []) ++
  (if date.day = 0 ∨ date.day < 1 then
    ["Day must be greater than 0"] else []) ++
  (if date.month ≠ 0 ∧ date.day ≠ 0 ∧ date.day > jsDaysInMonth date.year date.month then
    ["Day " ++ toString date.day ++ " is invalid for month " ++ toString date.month]
   else [])

/-- `CalendarConverter.validateGregorianDate`. -/
def validateGregorianDate (date : GregorianDate) : DateValidationResult :=
  { isValid := (gregorianValidationErrors date).length == 0
    errors := gregorianValidationErrors date }

/-- The error accumulation of `validateHijriDate`. -/
def hijriValidationErrors (date : HijriDate) : List String :=
  (if date.year = 0 ∨ date.year < 1 ∨ date.year > 2000 then
    ["Hijri year must be between 1 and 2000"] else []) ++
  (if date.month = 0 ∨ date.month < 1 ∨ date.month > 12 then
    ["Month must be between 1 and 12"] else []) ++
  (if date.day = 0 ∨ date.day < 1 ∨ date.day > 30 then
    ["Day must be between 1 and 30"] else [])

/-- `CalendarConverter.validateHijriDate`. -/
def validateHijriDate (date : HijriDate) : DateValidationResult :=
  { isValid := (hijriValidationErrors date).length == 0
    errors := hijriValidationErrors date }

/-! ## RegionalMappingRegistry (`initializeRegionalMappings`) -/

/-- The four fixed entries installed by `initializeRegionalMappings`,
exposed as the `Map.get` lookup function. -/
def regionalMappings (r : Region) : Option RegionalMapping :=
  if r = Region.GLOBAL then
    some ⟨Region.GLOBAL, 0, false, "Standard Umm al-Qura calendar (Saudi Arabia)"⟩
  else if r = Region.INDONESIA then
    some ⟨Region.INDONESIA, -1, true, "Indonesian rukyat-based Islamic calendar"⟩
  else if r = Region.SAUDI_ARABIA then
    some ⟨Region.SAUDI_ARABIA, 0, false, "Official Saudi Arabian Umm al-Qura calendar"⟩
  else if r = Region.MALAYSIA then
    some ⟨Region.MALAYSIA, 0, true, "Malaysian Islamic calendar with local adjustments"⟩
  else none

/-- `options.region || Region.GLOBAL` — the empty string is falsy in JS. -/
def resolveRegion (r : Option Region) : Region :=
  match r with
  | some s => if s = "" then Region.GLOBAL else s
  | none => Region.GLOBAL

/-! ## The hijri-js bridge

Modelled from the spec: the JulianDayBridge external primitive (the
third-party `hijri-js` library used via `this.hijri`) is not part of this
repository's sources.  Per spec §6 it is "a pure function pair
`gregorianToHijriRaw` / `hijriToGregorianRaw` ... assumed correct and
side-effect-free"; the engine "trusts it as ground truth for the GLOBAL
region".  It is therefore embedded as an abstract pair of pure functions
on (year, month, day) triples, and theorems that depend on its behaviour
take the spec's correctness assumption as an explicit hypothesis. -/
structure HijriBridge where
  gregorianToHijri : Int → Int → Int → Int × Int × Int
  hijriToGregorian : Int → Int → Int → Int × Int × Int

/-! ## CalendarConverter -/

/-- The fixed `monthNames` table of `getHijriMonthName`. -/
def hijriMonthNames : List String :=
  ["Muharram", "Safar", "Rabi' al-awwal", "Rabi' al-thani",
   "Jumada al-awwal", "Jumada al-thani", "Rajab", "Sha'ban",
   "Ramadan", "Shawwal", "Dhu al-Qi'dah", "Dhu al-Hijjah"]

/-- `CalendarConverter.getHijriMonthName`: fixed table lookup with the
JS `|| Month ${month}` fallback; the array access `monthNames[month - 1]`
is defined exactly for `month ∈ [1, 12]` (all table entries are truthy). -/
def getHijriMonthName (month : Int) : String :=
  if 1 ≤ month ∧ month ≤ 12 then hijriMonthNames.getD (month - 1).toNat ""
  else "Month " ++ toString month

/-- `CalendarConverter.adjustHijriDate`: round-trip through Gregorian,
shift by `adjustmentDays` calendar days, convert back; preserves the
input's `monthName`. -/
def adjustHijriDate (b : HijriBridge) (date : HijriDate) (adjustmentDays : Int) : HijriDate :=
  if adjustmentDays = 0 then date
  else
    let g := b.hijriToGregorian date.year date.month date.day
    let adjusted := addDays ⟨g.1, g.2.1, g.2.2⟩ adjustmentDays
    let h := b.gregorianToHijri adjusted.year adjusted.month adjusted.day
    ⟨h.1, h.2.1, h.2.2, date.monthName⟩

/-- The "Apply regional adjustments" block of `gregorianToHijri`:
returns (adjusted hijri date, confidence, notes, fallbackUsed). -/
def applyRegionalAdjustments (b : HijriBridge) (mapping : Option RegionalMapping)
    (hijriDate : HijriDate) : HijriDate × Confidence × String × Bool :=
  match mapping with
  | some mp =>
    if mp.adjustmentDays ≠ 0 then
      (adjustHijriDate b hijriDate mp.adjustmentDays,
       if mp.rukyatBased then .medium else .high,
       if mp.rukyatBased then "Adjusted for local sighting practices" else "",
       false)
    else (hijriDate, .high, "", false)
  | none => (hijriDate, .low, "Using fallback global mapping", true)

/-- `CalendarConverter.gregorianToHijri`. -/
def gregorianToHijri (b : HijriBridge) (gregorianDate : GregorianDate)
    (options : ConversionOptions := {}) :
    Except (ConversionError GregorianDate) (ConversionResult GregorianDate HijriDate) :=
  let validation := validateGregorianDate gregorianDate
  if !validation.isValid && truthy options.strict then
    .error ⟨"Invalid Gregorian date: " ++ String.intercalate ", " validation.errors,
            "INVALID_GREGORIAN_DATE", gregorianDate, .hijri⟩
  else
    let region := resolveRegion options.region
    let mapping := regionalMappings region
    if mapping.isNone && !truthy options.allowFallback then
      .error ⟨"No mapping available for region: " ++ region,
              "NO_REGIONAL_MAPPING", gregorianDate, .hijri⟩
    else
      let t := b.gregorianToHijri gregorianDate.year gregorianDate.month gregorianDate.day
      let hijriDate0 : HijriDate := ⟨t.1, t.2.1, t.2.2, none⟩
      let meta := applyRegionalAdjustments b mapping hijriDate0
      let hijriDate :=
        if truthy options.includeMonthNames then
          { meta.1 with monthName := some (getHijriMonthName meta.1.month) }
        else meta.1
      .ok { originalDate := gregorianDate
            convertedDate := hijriDate
            sourceCalendar := .gregorian
            targetCalendar := if region = Region.INDONESIA then .hijri_indonesia else .hijri
            region := region
            confidence := meta.2.1
            notes := meta.2.2.1
            fallbackUsed := meta.2.2.2 }

/-- The confidence/notes/fallback assignment of `hijriToGregorian`
(`if (!mapping && options.allowFallback) ... else if (mapping && mapping.rukyatBased) ...`). -/
def reverseConfidence (mapping : Option RegionalMapping) (allowFallbackTruthy : Bool) :
    Confidence × String × Bool :=
  match mapping with
  | none =>
    if allowFallbackTruthy then (.low, "Using fallback global mapping", true)
    else (.high, "", false)
  | some mp =>
    if mp.rukyatBased then (.medium, "Reverse-adjusted for local sighting practices", false)
    else (.high, "", false)

/-- `CalendarConverter.hijriToGregorian`. -/
def hijriToGregorian (b : HijriBridge) (hijriDate : HijriDate)
    (options : ConversionOptions := {}) :
    Except (ConversionError HijriDate) (ConversionResult HijriDate GregorianDate) :=
  let validation := validateHijriDate hijriDate
  if !validation.isValid && truthy options.strict then
    .error ⟨"Invalid Hijri date: " ++ String.intercalate ", " validation.errors,
            "INVALID_HIJRI_DATE", hijriDate, .gregorian⟩
  else
    let region := resolveRegion options.region
    let mapping := regionalMappings region
    let adjustedHijriDate :=
      match mapping with
      | some mp =>
        if mp.adjustmentDays ≠ 0 then adjustHijriDate b hijriDate (-mp.adjustmentDays)
        else hijriDate
      | none => hijriDate
    let t := b.hijriToGregorian adjustedHijriDate.year adjustedHijriDate.month adjustedHijriDate.day
    let gregorianDate : GregorianDate := ⟨t.1, t.2.1, t.2.2⟩
    let meta := reverseConfidence mapping (truthy options.allowFallback)
    .ok { originalDate := hijriDate
          convertedDate := gregorianDate
          sourceCalendar := .hijri
          targetCalendar := .gregorian
          region := region
          confidence := meta.1
          notes := meta.2.1
          fallbackUsed := meta.2.2 }

/-- `CalendarConverter.convertForIndonesia`. -/
def convertForIndonesia (b : HijriBridge) (gregorianDate : GregorianDate)
    (options : ConversionOptions := {}) :
    Except (ConversionError GregorianDate) (ConversionResult GregorianDate HijriDate) :=
  let indonesianOptions : ConversionOptions :=
    { options with
      region := some Region.INDONESIA
      includeMonthNames := some (options.includeMonthNames.getD true) }
  match gregorianToHijri b gregorianDate indonesianOptions with
  | .error e => .error e
  | .ok result =>
    .ok { result with
          notes := (if result.notes ≠ "" then result.notes ++ ". " else "") ++
            "Indonesian rukyat-based calendar may vary based on local moon sighting." }

/-! ## Spec-side definitions for comparison and statement of claims -/

/-- Transcribed from the spec's words (claim C6): days-in-month under the
proleptic Gregorian leap rule
`year % 4 == 0 && (year % 100 != 0 || year % 400 == 0)`. -/
def specIsLeapYear (y : Int) : Bool :=
  y % 4 == 0 && (y % 100 != 0 || y % 400 == 0)

/-- Transcribed from the spec's words (claim C6): February has 29 days in
leap years and 28 otherwise; thirty-day months are April, June,
September, November; the rest have 31. -/
def specDaysInMonth (y m : Int) : Int :=
  if m = 2 then (if specIsLeapYear y then 29 else 28)
  else if m = 4 ∨ m = 6 ∨ m = 9 ∨ m = 11 then 30
  else 31

/-- A structurally correct Gregorian date (month in range, day within the
month).  This is the domain on which single-day shifts are inverse to
each other; unlike the validator it places no bound on the year, because
day shifts may momentarily leave the validator's year range. -/
def ProperGregorian (g : GregorianDate) : Prop :=
  1 ≤ g.month ∧ g.month ≤ 12 ∧ 1 ≤ g.day ∧ g.day ≤ monthLen g.year g.month

instance (g : GregorianDate) : Decidable (ProperGregorian g) := by
  unfold ProperGregorian; infer_instance

/-- The spec's correctness assumption on the external bridge (§6: the
pair is "assumed correct"; the engine "trusts it as ground truth"):
converting a proper Gregorian date to Hijri and back is the identity. -/
def BridgeInverts (b : HijriBridge) : Prop :=
  ∀ g : GregorianDate, ProperGregorian g →
    b.hijriToGregorian (b.gregorianToHijri g.year g.month g.day).1
      (b.gregorianToHijri g.year g.month g.day).2.1
      (b.gregorianToHijri g.year g.month g.day).2.2
      = (g.year, g.month, g.day)

/-- A concrete bridge instance used to exhibit satisfiability of the
bridge assumptions and to evaluate the engine on closed inputs: both
directions are the identity on (year, month, day) triples. -/
def idBridge : HijriBridge :=
  { gregorianToHijri := fun y m d => (y, m, d)
    hijriToGregorian := fun y m d => (y, m, d) }

theorem idBridge_inverts : BridgeInverts idBridge := fun _ _ => rfl

/-- Days before year `y`'s month `m` within year `y`. -/
def daysBeforeMonth (y m : Int) : Int :=
  ((List.range (m - 1).toNat).map (fun k => monthLen y (k + 1))).sum

/-- Leap days up to and including year `y` (floor division). -/
def leapDays (y : Int) : Int := y / 4 - y / 100 + y / 400

/-- Linear day count of a Gregorian date, used to express "differs by at
most one calendar day". -/
def dayNumber (g : GregorianDate) : Int :=
  365 * (g.year - 1) + leapDays (g.year - 1) + daysBeforeMonth g.year g.month + g.day

/-! ## Helper lemmas -/

theorem monthLen_ge (y m : Int) : 28 ≤ monthLen y m := by
  unfold monthLen; split_ifs <;> omega

theorem monthLen_twelve (y : Int) : monthLen y 12 = 31 := by
  unfold monthLen; norm_num

theorem prevDay_proper {g : GregorianDate} (hg : ProperGregorian g) :
    ProperGregorian (prevDay g) := by
  obtain ⟨y, m, d⟩ := g
  obtain ⟨h1, h2, h3, h4⟩ := hg
  dsimp only at h1 h2 h3 h4
  unfold prevDay
  dsimp only
  split_ifs with hd hm
  · exact ⟨h1, h2, by dsimp only; omega, by dsimp only; omega⟩
  · refine ⟨by dsimp only; omega, by dsimp only; omega, ?_, le_refl _⟩
    have := monthLen_ge y (m - 1)
    dsimp only
    omega
  · refine ⟨by norm_num, by norm_num, by norm_num, ?_⟩
    dsimp only
    rw [monthLen_twelve]

theorem nextDay_prevDay {g : GregorianDate} (hg : ProperGregorian g) :
    nextDay (prevDay g) = g := by
  obtain ⟨y, m, d⟩ := g
  obtain ⟨h1, h2, h3, h4⟩ := hg
  dsimp only at h1 h2 h3 h4
  simp only [prevDay]
  split_ifs with hd hm
  · simp only [nextDay]
    rw [if_pos (by omega)]
    simp only [GregorianDate.mk.injEq, true_and]
    omega
  · simp only [nextDay]
    have hlen := monthLen_ge y (m - 1)
    rw [if_neg (by omega), if_pos (by omega)]
    simp only [GregorianDate.mk.injEq, true_and]
    omega
  · simp only [nextDay]
    rw [if_neg (by rw [monthLen_twelve]; omega), if_neg (by omega)]
    simp only [GregorianDate.mk.injEq]
    omega

theorem addDays_neg_one (g : GregorianDate) : addDays g (-1) = prevDay g := by
  unfold addDays
  norm_num

theorem addDays_one (g : GregorianDate) : addDays g 1 = nextDay g := by
  unfold addDays
  norm_num

theorem isLeapYear_jsYear {y : Int} (hy : 1 ≤ y) :
    isLeapYear (jsYear y) = isLeapYear y := by
  unfold jsYear
  split_ifs with h
  · unfold isLeapYear
    have h4 : (1900 + y) % 4 = y % 4 := by omega
    have h100 : (1900 + y) % 100 = y % 100 := by omega
    have hne : (y % 100 != 0) = true := by
      simp only [bne_iff_ne, ne_eq]
      omega
    rw [h4, h100, hne]
    simp
  · rfl

theorem monthLen_jsYear {y : Int} (hy : 1 ≤ y) (m : Int) :
    monthLen (jsYear y) m = monthLen y m := by
  unfold monthLen
  rw [isLeapYear_jsYear hy]

theorem jsDaysInMonth_eq {y m : Int} (hy : 1 ≤ y) (hm1 : 1 ≤ m) (hm2 : m ≤ 12) :
    jsDaysInMonth y m = monthLen y m := by
  unfold jsDaysInMonth
  rw [show (m - 1) / 12 = 0 by omega, show (m - 1) % 12 + 1 = m by omega, add_zero,
    monthLen_jsYear hy]

theorem valid_bounds {g : GregorianDate}
    (h : (validateGregorianDate g).isValid = true) :
    1 ≤ g.year ∧ g.year ≤ 9999 ∧ 1 ≤ g.month ∧ g.month ≤ 12 ∧ 1 ≤ g.day ∧
      g.day ≤ jsDaysInMonth g.year g.month := by
  obtain ⟨y, m, d⟩ := g
  simp only [validateGregorianDate, gregorianValidationErrors, beq_iff_eq,
    List.length_eq_zero, List.append_eq_nil] at h
  split_ifs at h with h1 h2 h3 h4 <;> simp_all

theorem valid_proper {g : GregorianDate}
    (h : (validateGregorianDate g).isValid = true) : ProperGregorian g := by
  obtain ⟨hy1, _, hm1, hm2, hd1, hd2⟩ := valid_bounds h
  rw [jsDaysInMonth_eq hy1 hm1 hm2] at hd2
  exact ⟨hm1, hm2, hd1, hd2⟩

theorem specDaysInMonth_eq_monthLen (y m : Int) : specDaysInMonth y m = monthLen y m := rfl

/-! ## Claim theorems -/

/-- C10: `getHijriMonthName` maps 1 to "Muharram", 9 to "Ramadan", 12 to
"Dhu al-Hijjah", and for every integer outside `[1, 12]` it returns the
placeholder "Month " followed by the number instead of raising. -/
theorem getHijriMonthName_table :
    getHijriMonthName 1 = "Muharram" ∧ getHijriMonthName 9 = "Ramadan" ∧
    getHijriMonthName 12 = "Dhu al-Hijjah" ∧
    ∀ m : Int, (m < 1 ∨ 12 < m) → getHijriMonthName m = "Month " ++ toString m := by
  refine ⟨rfl, rfl, rfl, ?_⟩
  intro m hm
  unfold getHijriMonthName
  rw [if_neg (by omega)]

/-- Witness for C10 at the out-of-range month 13. -/
theorem getHijriMonthName_table_witness :
    ((13 : Int) < 1 ∨ (12 : Int) < 13) ∧ getHijriMonthName 13 = "Month " ++ toString (13 : Int) :=
  ⟨Or.inr (by decide), getHijriMonthName_table.2.2.2 13 (Or.inr (by decide))⟩

/-- C6: for dates passing the basic range checks, `validateGregorianDate`
is valid exactly when the day fits the month length under the proleptic
Gregorian leap rule; {2024,2,29} is valid, {2023,2,29} is invalid with an
error naming the day/month mismatch. -/
theorem validateGregorianDate_leap_rule :
    (∀ y m d : Int, 1 ≤ y → y ≤ 9999 → 1 ≤ m → m ≤ 12 → 1 ≤ d →
      ((validateGregorianDate ⟨y, m, d⟩).isValid = true ↔ d ≤ specDaysInMonth y m)) ∧
    (validateGregorianDate ⟨2024, 2, 29⟩).isValid = true ∧
    (validateGregorianDate ⟨2023, 2, 29⟩).isValid = false ∧
    "Day 29 is invalid for month 2" ∈ (validateGregorianDate ⟨2023, 2, 29⟩).errors := by
  refine ⟨?_, by decide, by decide, by decide⟩
  intro y m d hy1 hy2 hm1 hm2 hd1
  have hj : jsDaysInMonth y m = monthLen y m := jsDaysInMonth_eq hy1 hm1 hm2
  have hs : specDaysInMonth y m = monthLen y m := specDaysInMonth_eq_monthLen y m
  simp only [validateGregorianDate, gregorianValidationErrors, beq_iff_eq,
    List.length_eq_zero]
  rw [if_neg (by omega), if_neg (by omega), if_neg (by omega)]
  simp only [List.nil_append]
  split_ifs with hc
  · rw [hj] at hc
    simp only [List.cons_ne_nil, false_iff, not_le, hs]
    omega
  · rw [hj] at hc
    simp only [true_iff, hs]
    omega

/-- Witness for C6 at (2024, 2, 29). -/
theorem validateGregorianDate_leap_rule_witness :
    (1 : Int) ≤ 2024 ∧
    ((validateGregorianDate ⟨2024, 2, 29⟩).isValid = true ↔ (29 : Int) ≤ specDaysInMonth 2024 2) :=
  ⟨by decide, validateGregorianDate_leap_rule.1 2024 2 29 (by decide) (by decide)
    (by decide) (by decide) (by decide)⟩

/-- C5: `gregorianToHijri {2023,2,30}` raises `INVALID_GREGORIAN_DATE`
when `strict = true`, and returns a result without raising when `strict`
is unset or false. -/
theorem strict_mode_invalid_gregorian (b : HijriBridge) :
    (∃ e, gregorianToHijri b ⟨2023, 2, 30⟩ { strict := some true } = .error e ∧
      e.code = "INVALID_GREGORIAN_DATE") ∧
    (∃ r, gregorianToHijri b ⟨2023, 2, 30⟩ {} = .ok r) ∧
    (∃ r, gregorianToHijri b ⟨2023, 2, 30⟩ { strict := some false } = .ok r) :=
  ⟨⟨_, rfl, rfl⟩, ⟨_, rfl⟩, ⟨_, rfl⟩⟩

/-- C1 counterexample: leaving `allowFallback` unset with an unregistered
region does NOT fall back — `gregorianToHijri` raises
`NO_REGIONAL_MAPPING` (`!options.allowFallback` is true for `undefined`),
contradicting the claim that unset `allowFallback` defaults to the
fallback behaviour. -/
theorem fallback_unset_raises :
    gregorianToHijri idBridge ⟨2024, 1, 1⟩ { region := some "unknown_region" } =
      .error ⟨"No mapping available for region: unknown_region", "NO_REGIONAL_MAPPING",
        ⟨2024, 1, 1⟩, .hijri⟩ := rfl

/-- C1 (amended): for every Gregorian date and unregistered region,
`gregorianToHijri` with `allowFallback` EXPLICITLY true proceeds with the
GLOBAL mapping's semantics (same converted date as a GLOBAL-region call)
and returns `fallbackUsed = true`, `confidence = low` and the
informational note; with `allowFallback` unset it instead raises
`NO_REGIONAL_MAPPING`. -/
theorem fallback_explicit_true_uses_global (b : HijriBridge) (g : GregorianDate)
    (r : Region) (hmap : regionalMappings r = none) (hr : r ≠ "") :
    ∃ result globalResult,
      gregorianToHijri b g { region := some r, allowFallback := some true } = .ok result ∧
      result.fallbackUsed = true ∧ result.confidence = .low ∧
      result.notes = "Using fallback global mapping" ∧
      gregorianToHijri b g { region := some Region.GLOBAL } = .ok globalResult ∧
      result.convertedDate = globalResult.convertedDate := by
  have h1 : gregorianToHijri b g { region := some r, allowFallback := some true } =
      .ok { originalDate := g,
            convertedDate := ⟨(b.gregorianToHijri g.year g.month g.day).1,
                             (b.gregorianToHijri g.year g.month g.day).2.1,
                             (b.gregorianToHijri g.year g.month g.day).2.2, none⟩,
            sourceCalendar := .gregorian,
            targetCalendar := if r = Region.INDONESIA then .hijri_indonesia else .hijri,
            region := r,
            confidence := .low,
            notes := "Using fallback global mapping",
            fallbackUsed := true } := by
    unfold gregorianToHijri
    simp only [resolveRegion, truthy, Option.getD, Bool.and_false, Bool.not_true,
      Bool.and_true, if_neg hr, hmap, Option.isNone_none, applyRegionalAdjustments,
      Bool.false_and, Bool.and_self, if_false]
    rfl
  have h2 : gregorianToHijri b g { region := some Region.GLOBAL } =
      .ok { originalDate := g,
            convertedDate := ⟨(b.gregorianToHijri g.year g.month g.day).1,
                             (b.gregorianToHijri g.year g.month g.day).2.1,
                             (b.gregorianToHijri g.year g.month g.day).2.2, none⟩,
            sourceCalendar := .gregorian,
            targetCalendar := .hijri,
            region := Region.GLOBAL,
            confidence := .high,
            notes := "",
            fallbackUsed := false } := by
    unfold gregorianToHijri
    simp only [truthy, Option.getD, Bool.and_false, if_false]
    rfl
  exact ⟨_, _, h1, rfl, rfl, rfl, h2, rfl⟩

/-- Witness for C1 (amended) at region "unknown_region". -/
theorem fallback_explicit_true_uses_global_witness :
    regionalMappings "unknown_region" = none ∧ ("unknown_region" : Region) ≠ "" ∧
    ∃ result globalResult,
      gregorianToHijri idBridge ⟨2024, 1, 1⟩
        { region := some "unknown_region", allowFallback := some true } = .ok result ∧
      result.fallbackUsed = true ∧ result.confidence = .low ∧
      result.notes = "Using fallback global mapping" ∧
      gregorianToHijri idBridge ⟨2024, 1, 1⟩ { region := some Region.GLOBAL } = .ok globalResult ∧
      result.convertedDate = globalResult.convertedDate :=
  ⟨by decide, by decide,
    fallback_explicit_true_uses_global idBridge ⟨2024, 1, 1⟩ "unknown_region"
      (by decide) (by decide)⟩

/-- C2 counterexample: `hijriToGregorian` with an unregistered region and
`allowFallback = false` does NOT fail with `NO_REGIONAL_MAPPING` — it
returns a result (with `confidence = high` and `fallbackUsed = false`):
the missing-mapping guard exists only in `gregorianToHijri`. -/
theorem missing_mapping_reverse_returns_ok :
    hijriToGregorian idBridge ⟨1445, 6, 20, none⟩
        { region := some "unknown_region", allowFallback := some false } =
      .ok { originalDate := ⟨1445, 6, 20, none⟩, convertedDate := ⟨1445, 6, 20⟩,
            sourceCalendar := .hijri, targetCalendar := .gregorian,
            region := "unknown_region", confidence := .high, notes := "",
            fallbackUsed := false } := rfl

/-- C2 (amended): for every Hijri date and unregistered region with
`allowFallback = false`, `hijriToGregorian` returns a result with
`fallbackUsed = false` and `confidence = high` instead of raising, unlike
`gregorianToHijri`, which raises `ConversionError` with code
`NO_REGIONAL_MAPPING` on the same options. -/
theorem hijriToGregorian_missing_mapping_no_error (b : HijriBridge) (h : HijriDate)
    (g : GregorianDate) (r : Region) (hmap : regionalMappings r = none) (hr : r ≠ "") :
    (∃ result, hijriToGregorian b h { region := some r, allowFallback := some false } = .ok result ∧
      result.fallbackUsed = false ∧ result.confidence = .high) ∧
    (∃ e, gregorianToHijri b g { region := some r, allowFallback := some false } = .error e ∧
      e.code = "NO_REGIONAL_MAPPING") := by
  have h1 : hijriToGregorian b h { region := some r, allowFallback := some false } =
      .ok { originalDate := h,
            convertedDate := ⟨(b.hijriToGregorian h.year h.month h.day).1,
                             (b.hijriToGregorian h.year h.month h.day).2.1,
                             (b.hijriToGregorian h.year h.month h.day).2.2⟩,
            sourceCalendar := .hijri,
            targetCalendar := .gregorian,
            region := r,
            confidence := .high,
            notes := "",
            fallbackUsed := false } := by
    unfold hijriToGregorian
    simp only [resolveRegion, truthy, Option.getD, Bool.and_false, if_neg hr, hmap,
      reverseConfidence, if_false]
    rfl
  have h2 : gregorianToHijri b g { region := some r, allowFallback := some false } =
      .error ⟨"No mapping available for region: " ++ r, "NO_REGIONAL_MAPPING", g, .hijri⟩ := by
    unfold gregorianToHijri
    simp only [resolveRegion, truthy, Option.getD, Bool.and_false, if_neg hr, hmap,
      Option.isNone_none, Bool.not_false, Bool.and_self, if_false]
    rfl
  exact ⟨⟨_, h1, rfl, rfl⟩, ⟨_, h2, rfl⟩⟩

/-- Witness for C2 (amended) at region "unknown_region". -/
theorem hijriToGregorian_missing_mapping_no_error_witness :
    regionalMappings "unknown_region" = none ∧ ("unknown_region" : Region) ≠ "" ∧
    ((∃ result, hijriToGregorian idBridge ⟨1445, 6, 20, none⟩
        { region := some "unknown_region", allowFallback := some false } = .ok result ∧
      result.fallbackUsed = false ∧ result.confidence = .high) ∧
     (∃ e, gregorianToHijri idBridge ⟨2024, 1, 1⟩
        { region := some "unknown_region", allowFallback := some false } = .error e ∧
      e.code = "NO_REGIONAL_MAPPING")) :=
  ⟨by decide, by decide,
    hijriToGregorian_missing_mapping_no_error idBridge ⟨1445, 6, 20, none⟩ ⟨2024, 1, 1⟩
      "unknown_region" (by decide) (by decide)⟩

theorem applyRegionalAdjustments_fallback_low (b : HijriBridge)
    (mapping : Option RegionalMapping) (h0 : HijriDate)
    (hf : (applyRegionalAdjustments b mapping h0).2.2.2 = true) :
    (applyRegionalAdjustments b mapping h0).2.1 = .low := by
  cases mapping with
  | none => rfl
  | some mp =>
    simp only [applyRegionalAdjustments] at hf ⊢
    split_ifs at hf ⊢

theorem reverseConfidence_fallback_low (mapping : Option RegionalMapping) (aft : Bool)
    (hf : (reverseConfidence mapping aft).2.2 = true) :
    (reverseConfidence mapping aft).1 = .low := by
  cases mapping with
  | none =>
    simp only [reverseConfidence] at hf ⊢
    split_ifs at hf ⊢
    rfl
  | some mp =>
    simp only [reverseConfidence] at hf ⊢
    split_ifs at hf ⊢

/-- C4: every result returned by `gregorianToHijri`, `hijriToGregorian`
or `convertForIndonesia` satisfies `fallbackUsed = true ⇒ confidence = low`. -/
theorem fallback_implies_low_confidence (b : HijriBridge) :
    (∀ g opts r, gregorianToHijri b g opts = .ok r →
      r.fallbackUsed = true → r.confidence = Confidence.low) ∧
    (∀ h opts r, hijriToGregorian b h opts = .ok r →
      r.fallbackUsed = true → r.confidence = Confidence.low) ∧
    (∀ g opts r, convertForIndonesia b g opts = .ok r →
      r.fallbackUsed = true → r.confidence = Confidence.low) := by
  have base : ∀ g opts r, gregorianToHijri b g opts = .ok r →
      r.fallbackUsed = true → r.confidence = Confidence.low := by
    intro g opts r he hf
    simp only [gregorianToHijri] at he
    split at he
    · exact absurd he (by simp)
    · split at he
      · exact absurd he (by simp)
      · rw [Except.ok.injEq] at he
        subst he
        exact applyRegionalAdjustments_fallback_low b _ _ hf
  refine ⟨base, ?_, ?_⟩
  · intro h opts r he hf
    simp only [hijriToGregorian] at he
    split at he
    · exact absurd he (by simp)
    · rw [Except.ok.injEq] at he
      subst he
      exact reverseConfidence_fallback_low _ _ hf
  · intro g opts r he hf
    simp only [convertForIndonesia] at he
    split at he
    · exact absurd he (by simp)
    · rename_i res hres
      rw [Except.ok.injEq] at he
      subst he
      exact base g _ res hres hf

/-- Witness for C4 on a concrete fallback result. -/
theorem fallback_implies_low_confidence_witness :
    gregorianToHijri idBridge ⟨2024, 1, 1⟩
        { region := some "unknown_region", allowFallback := some true } =
      .ok { originalDate := ⟨2024, 1, 1⟩, convertedDate := ⟨2024, 1, 1, none⟩,
            sourceCalendar := .gregorian, targetCalendar := .hijri,
            region := "unknown_region", confidence := .low,
            notes := "Using fallback global mapping", fallbackUsed := true } ∧
    ({ originalDate := ⟨2024, 1, 1⟩, convertedDate := ⟨2024, 1, 1, none⟩,
       sourceCalendar := .gregorian, targetCalendar := .hijri,
       region := "unknown_region", confidence := .low,
       notes := "Using fallback global mapping", fallbackUsed := true } :
        ConversionResult GregorianDate HijriDate).confidence = Confidence.low :=
  ⟨rfl, (fallback_implies_low_confidence idBridge).1 ⟨2024, 1, 1⟩
    { region := some "unknown_region", allowFallback := some true } _ rfl rfl⟩

/-- C8: for region MALAYSIA (rukyat-based, zero adjustment) on valid
inputs, `gregorianToHijri` keeps `confidence = high` with no rukyat note
(the downgrade needs a non-zero adjustment), while `hijriToGregorian`
downgrades to `confidence = medium` with the reverse-adjustment note
(downgrade whenever the mapping is rukyat-based) — the two directions'
confidence policies are asymmetric. -/
theorem malaysia_confidence_asymmetry (b : HijriBridge) (g : GregorianDate) (h : HijriDate)
    (_hg : (validateGregorianDate g).isValid = true)
    (_hh : (validateHijriDate h).isValid = true) :
    (∃ r, gregorianToHijri b g { region := some Region.MALAYSIA } = .ok r ∧
      r.confidence = .high ∧ r.notes = "" ∧ r.fallbackUsed = false) ∧
    (∃ r, hijriToGregorian b h { region := some Region.MALAYSIA } = .ok r ∧
      r.confidence = .medium ∧
      r.notes = "Reverse-adjusted for local sighting practices" ∧ r.fallbackUsed = false) := by
  have h1 : gregorianToHijri b g { region := some Region.MALAYSIA } =
      .ok { originalDate := g,
            convertedDate := ⟨(b.gregorianToHijri g.year g.month g.day).1,
                             (b.gregorianToHijri g.year g.month g.day).2.1,
                             (b.gregorianToHijri g.year g.month g.day).2.2, none⟩,
            sourceCalendar := .gregorian,
            targetCalendar := .hijri,
            region := Region.MALAYSIA,
            confidence := .high,
            notes := "",
            fallbackUsed := false } := by
    unfold gregorianToHijri
    simp only [truthy, Option.getD, Bool.and_false, if_false]
    rfl
  have h2 : hijriToGregorian b h { region := some Region.MALAYSIA } =
      .ok { originalDate := h,
            convertedDate := ⟨(b.hijriToGregorian h.year h.month h.day).1,
                             (b.hijriToGregorian h.year h.month h.day).2.1,
                             (b.hijriToGregorian h.year h.month h.day).2.2⟩,
            sourceCalendar := .hijri,
            targetCalendar := .gregorian,
            region := Region.MALAYSIA,
            confidence := .medium,
            notes := "Reverse-adjusted for local sighting practices",
            fallbackUsed := false } := by
    unfold hijriToGregorian
    simp only [truthy, Option.getD, Bool.and_false, if_false]
    rfl
  exact ⟨⟨_, h1, rfl, rfl, rfl⟩, ⟨_, h2, rfl, rfl, rfl⟩⟩

/-- Witness for C8 at valid concrete dates. -/
theorem malaysia_confidence_asymmetry_witness :
    (validateGregorianDate ⟨2024, 4, 10⟩).isValid = true ∧
    (validateHijriDate ⟨1445, 6, 20, none⟩).isValid = true ∧
    ((∃ r, gregorianToHijri idBridge ⟨2024, 4, 10⟩ { region := some Region.MALAYSIA } = .ok r ∧
      r.confidence = .high ∧ r.notes = "" ∧ r.fallbackUsed = false) ∧
    (∃ r, hijriToGregorian idBridge ⟨1445, 6, 20, none⟩ { region := some Region.MALAYSIA } = .ok r ∧
      r.confidence = .medium ∧
      r.notes = "Reverse-adjusted for local sighting practices" ∧ r.fallbackUsed = false)) :=
  ⟨by decide, by decide,
    malaysia_confidence_asymmetry idBridge ⟨2024, 4, 10⟩ ⟨1445, 6, 20, none⟩
      (by decide) (by decide)⟩

/-- C9 counterexample: `convertForIndonesia` does NOT return a result for
every options value — it passes `strict` through, so a strict call on an
invalid date raises `INVALID_GREGORIAN_DATE`. -/
theorem convertForIndonesia_strict_raises :
    convertForIndonesia idBridge ⟨2023, 2, 30⟩ { strict := some true } =
      .error ⟨"Invalid Gregorian date: Day 30 is invalid for month 2",
        "INVALID_GREGORIAN_DATE", ⟨2023, 2, 30⟩, .hijri⟩ := rfl

/-- C9 (amended): whenever `convertForIndonesia` returns a result (it
raises only when `strict = true` and validation fails), the result has
`region = INDONESIA` and `targetCalendar = HIJRI_INDONESIA` (overriding
any caller-supplied region), carries the Hijri month name unless
`includeMonthNames` is explicitly false, and its notes end with the
standing rukyat note. -/
theorem convertForIndonesia_result_shape (b : HijriBridge) (g : GregorianDate)
    (opts : ConversionOptions) (r : ConversionResult GregorianDate HijriDate)
    (he : convertForIndonesia b g opts = .ok r) :
    r.region = Region.INDONESIA ∧ r.targetCalendar = .hijri_indonesia ∧
    (opts.includeMonthNames ≠ some false →
      r.convertedDate.monthName = some (getHijriMonthName r.convertedDate.month)) ∧
    r.notes = "Adjusted for local sighting practices. Indonesian rukyat-based calendar may vary based on local moon sighting." := by
  have hreg : resolveRegion (some Region.INDONESIA) = Region.INDONESIA := rfl
  have hmap : regionalMappings Region.INDONESIA =
      some ⟨Region.INDONESIA, -1, true, "Indonesian rukyat-based Islamic calendar"⟩ := rfl
  simp only [convertForIndonesia] at he
  split at he
  · exact absurd he (by simp)
  · rename_i res hres
    rw [Except.ok.injEq] at he
    subst he
    simp only [gregorianToHijri, hreg, hmap, applyRegionalAdjustments] at hres
    split at hres
    · exact absurd hres (by simp)
    · split at hres
      · rename_i hcond
        simp at hcond
      · rw [Except.ok.injEq] at hres
        subst hres
        refine ⟨rfl, rfl, ?_, rfl⟩
        intro hmn
        rcases hopt : opts.includeMonthNames with _ | bv
        · simp only [hopt]
          rfl
        · cases bv
          · exact absurd hopt hmn
          · simp only [hopt]
            rfl

/-- The concrete result of `convertForIndonesia` on 2024-04-10 with the
identity bridge, used by the C9 witness. -/
def indonesiaSampleResult : ConversionResult GregorianDate HijriDate :=
  { originalDate := ⟨2024, 4, 10⟩,
    convertedDate := ⟨2024, 4, 9, some (getHijriMonthName 4)⟩,
    sourceCalendar := .gregorian, targetCalendar := .hijri_indonesia,
    region := Region.INDONESIA, confidence := .medium,
    notes := "Adjusted for local sighting practices. Indonesian rukyat-based calendar may vary based on local moon sighting.",
    fallbackUsed := false }

/-- Witness for C9 (amended) at a concrete returning call. -/
theorem convertForIndonesia_result_shape_witness :
    convertForIndonesia idBridge ⟨2024, 4, 10⟩ {} = .ok indonesiaSampleResult ∧
    (indonesiaSampleResult.region = Region.INDONESIA ∧
     indonesiaSampleResult.targetCalendar = .hijri_indonesia ∧
     (({} : ConversionOptions).includeMonthNames ≠ some false →
       indonesiaSampleResult.convertedDate.monthName =
         some (getHijriMonthName indonesiaSampleResult.convertedDate.month)) ∧
     indonesiaSampleResult.notes = "Adjusted for local sighting practices. Indonesian rukyat-based calendar may vary based on local moon sighting.") :=
  ⟨rfl, convertForIndonesia_result_shape idBridge ⟨2024, 4, 10⟩ {} indonesiaSampleResult rfl⟩

/-- C7: converting 2024-01-01 with region GLOBAL and with region
INDONESIA yields converted dates differing in at least one of year,
month, day, and the INDONESIA result has `confidence = medium`; stated
under the spec's assumption (§6) that the external bridge pair is
mutually inverse. -/
theorem regional_divergence_2024 (b : HijriBridge) (hb : BridgeInverts b) :
    ∃ rg ri,
      gregorianToHijri b ⟨2024, 1, 1⟩ { region := some Region.GLOBAL } = .ok rg ∧
      gregorianToHijri b ⟨2024, 1, 1⟩ { region := some Region.INDONESIA } = .ok ri ∧
      ¬(rg.convertedDate.year = ri.convertedDate.year ∧
        rg.convertedDate.month = ri.convertedDate.month ∧
        rg.convertedDate.day = ri.convertedDate.day) ∧
      ri.confidence = Confidence.medium := by
  have hu1 : b.hijriToGregorian (b.gregorianToHijri 2024 1 1).1
      (b.gregorianToHijri 2024 1 1).2.1 (b.gregorianToHijri 2024 1 1).2.2 = (2024, 1, 1) :=
    hb ⟨2024, 1, 1⟩ (by decide)
  have h1 : gregorianToHijri b ⟨2024, 1, 1⟩ { region := some Region.GLOBAL } =
      .ok { originalDate := ⟨2024, 1, 1⟩,
            convertedDate := ⟨(b.gregorianToHijri 2024 1 1).1,
                             (b.gregorianToHijri 2024 1 1).2.1,
                             (b.gregorianToHijri 2024 1 1).2.2, none⟩,
            sourceCalendar := .gregorian,
            targetCalendar := .hijri,
            region := Region.GLOBAL,
            confidence := .high,
            notes := "",
            fallbackUsed := false } := by
    unfold gregorianToHijri
    simp only [truthy, Option.getD, Bool.and_false, if_false]
    rfl
  have hadj : adjustHijriDate b ⟨(b.gregorianToHijri 2024 1 1).1,
      (b.gregorianToHijri 2024 1 1).2.1, (b.gregorianToHijri 2024 1 1).2.2, none⟩ (-1) =
      ⟨(b.gregorianToHijri 2023 12 31).1, (b.gregorianToHijri 2023 12 31).2.1,
       (b.gregorianToHijri 2023 12 31).2.2, none⟩ := by
    unfold adjustHijriDate
    rw [if_neg (by norm_num)]
    dsimp only
    rw [hu1]
    rfl
  have hmeta : applyRegionalAdjustments b
      (regionalMappings (resolveRegion (some Region.INDONESIA)))
      ⟨(b.gregorianToHijri 2024 1 1).1, (b.gregorianToHijri 2024 1 1).2.1,
       (b.gregorianToHijri 2024 1 1).2.2, none⟩ =
      (adjustHijriDate b ⟨(b.gregorianToHijri 2024 1 1).1, (b.gregorianToHijri 2024 1 1).2.1,
        (b.gregorianToHijri 2024 1 1).2.2, none⟩ (-1),
       Confidence.medium, "Adjusted for local sighting practices", false) := rfl
  have h2 : gregorianToHijri b ⟨2024, 1, 1⟩ { region := some Region.INDONESIA } =
      .ok { originalDate := ⟨2024, 1, 1⟩,
            convertedDate := ⟨(b.gregorianToHijri 2023 12 31).1,
                             (b.gregorianToHijri 2023 12 31).2.1,
                             (b.gregorianToHijri 2023 12 31).2.2, none⟩,
            sourceCalendar := .gregorian,
            targetCalendar := .hijri_indonesia,
            region := Region.INDONESIA,
            confidence := .medium,
            notes := "Adjusted for local sighting practices",
            fallbackUsed := false } := by
    unfold gregorianToHijri
    simp only [truthy, Option.getD, Bool.and_false, if_false]
    rw [hmeta, hadj]
    rfl
  have hu2 : b.hijriToGregorian (b.gregorianToHijri 2023 12 31).1
      (b.gregorianToHijri 2023 12 31).2.1 (b.gregorianToHijri 2023 12 31).2.2 = (2023, 12, 31) :=
    hb ⟨2023, 12, 31⟩ (by decide)
  refine ⟨_, _, h1, h2, ?_, rfl⟩
  dsimp only
  rintro ⟨e1, e2, e3⟩
  rw [← e1, ← e2, ← e3, hu1] at hu2
  simp at hu2

/-- Witness for C7 with the identity bridge. -/
theorem regional_divergence_2024_witness :
    BridgeInverts idBridge ∧
    ∃ rg ri,
      gregorianToHijri idBridge ⟨2024, 1, 1⟩ { region := some Region.GLOBAL } = .ok rg ∧
      gregorianToHijri idBridge ⟨2024, 1, 1⟩ { region := some Region.INDONESIA } = .ok ri ∧
      ¬(rg.convertedDate.year = ri.convertedDate.year ∧
        rg.convertedDate.month = ri.convertedDate.month ∧
        rg.convertedDate.day = ri.convertedDate.day) ∧
      ri.confidence = Confidence.medium :=
  ⟨fun _ _ => rfl, regional_divergence_2024 idBridge (fun _ _ => rfl)⟩

theorem regionalMappings_adj {s : Region} {mp : RegionalMapping}
    (hm : regionalMappings s = some mp) :
    mp.adjustmentDays = 0 ∨ mp.adjustmentDays = -1 := by
  unfold regionalMappings at hm
  split_ifs at hm <;> cases hm <;> simp

/-- C3: for every valid Gregorian date `D` and every region for which
both conversions return results, converting `D` to Hijri and the
resulting date back to Gregorian (same region) lands within one calendar
day of `D` — in fact exactly on `D`; stated under the spec's assumption
(§6) that the external bridge pair is mutually inverse on proper dates. -/
theorem roundtrip_within_one_day (b : HijriBridge) (hb : BridgeInverts b)
    (D : GregorianDate) (R : Region) (r1 : ConversionResult GregorianDate HijriDate)
    (r2 : ConversionResult HijriDate GregorianDate)
    (hD : (validateGregorianDate D).isValid = true)
    (e1 : gregorianToHijri b D { region := some R } = .ok r1)
    (e2 : hijriToGregorian b r1.convertedDate { region := some R } = .ok r2) :
    (dayNumber r2.convertedDate - dayNumber D).natAbs ≤ 1 := by
  have hp : ProperGregorian D := valid_proper hD
  have hpp : ProperGregorian (prevDay D) := prevDay_proper hp
  have hu1 : b.hijriToGregorian (b.gregorianToHijri D.year D.month D.day).1
      (b.gregorianToHijri D.year D.month D.day).2.1
      (b.gregorianToHijri D.year D.month D.day).2.2 = (D.year, D.month, D.day) := hb D hp
  have hu2 : b.hijriToGregorian
      (b.gregorianToHijri (prevDay D).year (prevDay D).month (prevDay D).day).1
      (b.gregorianToHijri (prevDay D).year (prevDay D).month (prevDay D).day).2.1
      (b.gregorianToHijri (prevDay D).year (prevDay D).month (prevDay D).day).2.2
      = ((prevDay D).year, (prevDay D).month, (prevDay D).day) := hb (prevDay D) hpp
  suffices hcd : r2.convertedDate = D by
    rw [hcd]
    simp
  simp only [gregorianToHijri, truthy, Option.getD, Bool.and_false, if_false,
    Bool.not_false, Bool.and_true] at e1
  simp only [hijriToGregorian, truthy, Option.getD, Bool.and_false, if_false] at e2
  rcases hm : regionalMappings (resolveRegion (some R)) with _ | mp
  · rw [hm] at e1
    simp at e1
  · rw [hm] at e1 e2
    simp only [Option.isNone_some, Bool.false_eq_true, if_false] at e1 e2
    rw [Except.ok.injEq] at e1
    subst e1
    rw [Except.ok.injEq] at e2
    subst e2
    dsimp only at *
    rcases regionalMappings_adj hm with ha | ha
    · simp only [applyRegionalAdjustments, ha] at *
      norm_num
      rw [hu1]
    · have heta : (⟨D.year, D.month, D.day⟩ : GregorianDate) = D := rfl
      have heta2 : (⟨(prevDay D).year, (prevDay D).month, (prevDay D).day⟩ : GregorianDate) =
          prevDay D := rfl
      have k1 : adjustHijriDate b
          ⟨(b.gregorianToHijri D.year D.month D.day).1,
           (b.gregorianToHijri D.year D.month D.day).2.1,
           (b.gregorianToHijri D.year D.month D.day).2.2, none⟩ (-1) =
          ⟨(b.gregorianToHijri (prevDay D).year (prevDay D).month (prevDay D).day).1,
           (b.gregorianToHijri (prevDay D).year (prevDay D).month (prevDay D).day).2.1,
           (b.gregorianToHijri (prevDay D).year (prevDay D).month (prevDay D).day).2.2, none⟩ := by
        unfold adjustHijriDate
        rw [if_neg (by norm_num)]
        dsimp only
        rw [hu1]
        dsimp only
        rw [heta, addDays_neg_one]
      have k2 : adjustHijriDate b
          ⟨(b.gregorianToHijri (prevDay D).year (prevDay D).month (prevDay D).day).1,
           (b.gregorianToHijri (prevDay D).year (prevDay D).month (prevDay D).day).2.1,
           (b.gregorianToHijri (prevDay D).year (prevDay D).month (prevDay D).day).2.2, none⟩ 1 =
          ⟨(b.gregorianToHijri D.year D.month D.day).1,
           (b.gregorianToHijri D.year D.month D.day).2.1,
           (b.gregorianToHijri D.year D.month D.day).2.2, none⟩ := by
        unfold adjustHijriDate
        rw [if_neg (by norm_num)]
        dsimp only
        rw [hu2]
        dsimp only
        rw [heta2, addDays_one, nextDay_prevDay hp]
      simp only [applyRegionalAdjustments, ha] at *
      norm_num
      rw [k1, k2, hu1]

/-- The concrete results of the INDONESIA round trip on 2024-01-01 with
the identity bridge, used by the C3 witness. -/
def roundtripSampleR1 : ConversionResult GregorianDate HijriDate :=
  { originalDate := ⟨2024, 1, 1⟩, convertedDate := ⟨2023, 12, 31, none⟩,
    sourceCalendar := .gregorian, targetCalendar := .hijri_indonesia,
    region := Region.INDONESIA, confidence := .medium,
    notes := "Adjusted for local sighting practices", fallbackUsed := false }

def roundtripSampleR2 : ConversionResult HijriDate GregorianDate :=
  { originalDate := ⟨2023, 12, 31, none⟩, convertedDate := ⟨2024, 1, 1⟩,
    sourceCalendar := .hijri, targetCalendar := .gregorian,
    region := Region.INDONESIA, confidence := .medium,
    notes := "Reverse-adjusted for local sighting practices", fallbackUsed := false }

/-- Witness for C3: the INDONESIA round trip on 2024-01-01 with the
identity bridge. -/
theorem roundtrip_within_one_day_witness :
    (validateGregorianDate ⟨2024, 1, 1⟩).isValid = true ∧
    (dayNumber roundtripSampleR2.convertedDate - dayNumber ⟨2024, 1, 1⟩).natAbs ≤ 1 :=
  ⟨by decide,
    roundtrip_within_one_day idBridge (fun _ _ => rfl) ⟨2024, 1, 1⟩ Region.INDONESIA
      roundtripSampleR1 roundtripSampleR2 (by decide) rfl rfl⟩

end CalendarMS
